import Mathlib

/-!
Shallow embedding of `src/content/index.tsx` (the `GeminiHelper` React
component of chrome-extension-typescript-starter): a floating-helper overlay
that tracks the focused editable element, shows a trigger button and a menu,
and applies AI text transformations to the focused element.

Modelling conventions:
* The component's `useState` variables (`currentElement`, `isMenuOpen`,
  `isProcessing`) and the mutable style/content of the two singleton DOM
  controls (helper button, helper menu) are collected in one state record
  `St`; every handler becomes a function `St → St` (or `St → St × List Event`
  for `processText`, whose observable side effects — `setIsProcessing`,
  `alert`, the outbound `fetch` — are recorded in an event trace).
* A DOM element is a record `Element` carrying exactly the attributes the
  code reads (`tagName`, `isContentEditable`, `role`, `value`, `textContent`,
  bounding-rect geometry, and the result of the two `closest(...)` class
  queries) plus an `id` for reference identity (`===`/`!==` comparisons) and
  the DOM `type` attribute of inputs (never read by the code; used only to
  state spec-side predicates about "single-line text inputs").
* `document.activeElement` is modelled as `Option Element`, with `none`
  standing for `document.body` (the value `activeElement` takes when no
  element is focused); the body is never an eligible target, hence never the
  `currentElement`, so `activeElement !== currentElement` is element-id
  inequality and is `true` whenever either side is absent.
* The single `await fetch(...)` is replaced by a `FetchOutcome` parameter:
  `success t` models an `ok` response whose JSON yields
  `candidates[0].content.parts[0].text = t`; `failure` models a non-`ok`
  response, a thrown transport error, or a response-shape parsing error (all
  of which land in the same `catch` block). One call to `processText` is one
  complete invocation of the async function, run atomically.
* The 100 ms blur debounce (`setTimeout` in `handleElementBlur`) is modelled
  in the event system by a counter of pending timers: a blur that schedules
  a hide increments it, and a `blurTimeout` event (the timer firing) is only
  enabled while the counter is positive.
-/

set_option maxRecDepth 8192

namespace GeminiHelper

/-- A DOM element as seen by the content script: the attributes the code
reads, plus `id` for reference identity and `inputType` (the `type`
attribute of `<input>` elements, not read by the code). `closestHelperButton`
(resp. `closestHelperMenu`) records whether
`el.closest(".gemini-helper-button")` (resp. `".gemini-helper-menu"`) finds
a node, i.e. whether the element is inside the trigger button (resp. the
menu). -/
structure Element where
  id : Nat
  tagName : String
  inputType : String
  isContentEditable : Bool
  role : Option String
  value : String
  textContent : String
  rectTop : Int
  rectRight : Int
  closestHelperButton : Bool
  closestHelperMenu : Bool
deriving DecidableEq

/-- The mutable state of the component and of its two singleton controls:
React state (`currentElement`, `isMenuOpen`, `isProcessing`), the helper
button's style/content (`display`, `textContent`, the
`gemini-helper-loading` class, `left`/`top`/`zIndex`), the menu's
style (`display`, `left`/`top`/`zIndex`), and the ambient document state the
handlers read (`document.activeElement`, `window.scrollX`/`scrollY`) plus
the count of pending blur-debounce timers. -/
structure St where
  currentElement : Option Element
  isMenuOpen : Bool
  isProcessing : Bool
  buttonDisplay : String
  buttonText : String
  buttonLoading : Bool
  buttonLeft : Int
  buttonTop : Int
  buttonZIndex : String
  menuDisplay : String
  menuLeft : Int
  menuTop : Int
  menuZIndex : String
  activeElement : Option Element
  scrollX : Int
  scrollY : Int
  pendingBlurTimers : Nat
deriving DecidableEq

/-- Outcome of the one `await fetch(...)` call in `processText`:
`success t` is an `ok` response parsing to improved text `t`; `failure` is
any path that lands in the `catch` block (non-`ok` response, transport
error, or response-shape error). -/
inductive FetchOutcome
  | success (improvedText : String)
  | failure
deriving DecidableEq

/-- Observable side effects of one `processText` invocation, in program
order: each `setIsProcessing(b)` call, each `alert(msg)`, and the outbound
`fetch` (recorded with its request text `prompt ++ ": " ++ text`). -/
inductive Event
  | setProcessing (b : Bool)
  | alert (msg : String)
  | fetchCall (requestText : String)
deriving DecidableEq

/-- The synchronous result of `handleElementBlur` (lines 160-175): either
the blur is ignored entirely (the early `return` when the newly focused
element is inside the button or the menu), or a hide is scheduled after the
given debounce delay in milliseconds. -/
inductive BlurAction
  | ignored
  | scheduleHide (delayMs : Nat)
deriving DecidableEq

/-- Embeds `closeMenu` (lines 143-147): clear `isMenuOpen`, set the menu's display
to `"none"`. (The menu ref is always set after mount.) -/
def closeMenu (s : St) : St :=
  { s with isMenuOpen := false, menuDisplay := "none" }

/-- Embeds `openMenu` (lines 137-141): set `isMenuOpen`, set the menu's display to
`"block"`. -/
def openMenu (s : St) : St :=
  { s with isMenuOpen := true, menuDisplay := "block" }

/-- Embeds `hideHelper` (lines 131-135): a no-op while the menu is open or a
transform is processing; otherwise hide the button and close the menu. -/
def hideHelper (s : St) : St :=
  if s.isMenuOpen || s.isProcessing then s
  else closeMenu { s with buttonDisplay := "none" }

/-- Embeds `updateHelperPosition` (lines 107-124): compute document coordinates
from the element's bounding rect and the window scroll offset, place the
button at the target's top-right corner (overlapping by the 32 px button
size), show it, and anchor the menu just below it. -/
def updateHelperPosition (element : Element) (s : St) : St :=
  let buttonSize : Int := 32
  let top := element.rectTop + s.scrollY
  let left := element.rectRight + s.scrollX
  { s with
    buttonLeft := left - buttonSize
    buttonTop := top
    buttonDisplay := "flex"
    buttonZIndex := "9999999"
    menuLeft := left - 10
    menuTop := top + buttonSize - 8
    menuZIndex := "9999999" }

/-- Embeds `showHelper` (lines 126-129): adopt the element as the current target
and position/show the controls. -/
def showHelper (element : Element) (s : St) : St :=
  updateHelperPosition element { s with currentElement := some element }

/-- The eligibility condition of `handleElementFocus` (lines 150-155):
`tagName === "TEXTAREA" || tagName === "INPUT" || isContentEditable ||
role === "textbox"`. -/
def isEligibleTarget (element : Element) : Bool :=
  element.tagName == "TEXTAREA" || element.tagName == "INPUT" ||
    element.isContentEditable || element.role == some "textbox"

/-- Embeds `handleElementFocus` (lines 149-158): show the helper on the focused
element exactly when it passes the eligibility condition; otherwise do
nothing. -/
def handleElementFocus (element : Element) (s : St) : St :=
  if isEligibleTarget element then showHelper element s else s

/-- Embeds `handleElementBlur` (lines 160-175), synchronous part: if the element
gaining focus (`event.relatedTarget`) is inside the helper button or the
helper menu, return without doing anything; otherwise schedule the
debounced hide via `setTimeout(..., 100)`. The handler itself mutates no
state. -/
def handleElementBlur (relatedTarget : Option Element) : BlurAction :=
  match relatedTarget with
  | some rt =>
      if rt.closestHelperButton || rt.closestHelperMenu then BlurAction.ignored
      else BlurAction.scheduleHide 100
  | none => BlurAction.scheduleHide 100

/-- The body of the `setTimeout` callback in `handleElementBlur`
(lines 170-174), evaluated against the state at the moment the timer fires:
hide only if the menu is closed and no transform is processing. -/
def blurTimeoutBody (s : St) : St :=
  if !s.isMenuOpen && !s.isProcessing then hideHelper s else s

/-- Embeds the comparison `document.activeElement !== currentElement`, negated: the two refer to
the same element. `activeElement = none` models `document.body`, which is
never an eligible target and hence never the `currentElement`, so the
comparison is `false` whenever either side is absent. -/
def activeIsCurrent (s : St) : Bool :=
  match s.activeElement, s.currentElement with
  | some a, some c => a.id == c.id
  | _, _ => false

/-- Embeds `handleDocumentClick` (lines 190-202): if the click target is outside
both the button and the menu, close the menu, and additionally hide the
helper when the currently focused element is not the current target. -/
def handleDocumentClick (target : Element) (s : St) : St :=
  if !target.closestHelperButton && !target.closestHelperMenu then
    let s1 := closeMenu s
    if !(activeIsCurrent s1) then hideHelper s1 else s1
  else s

/-- Embeds `handleButtonClick` (lines 205-212): toggle the menu (the click does
not propagate to the document handler because of `stopPropagation`). -/
def handleButtonClick (s : St) : St :=
  if s.isMenuOpen then closeMenu s else openMenu s

/-- Embeds `handleScroll` (lines 178-182): reposition the controls on scroll while
a target is set and the button is visible. -/
def handleScroll (s : St) : St :=
  match s.currentElement with
  | some el => if s.buttonDisplay != "none" then updateHelperPosition el s else s
  | none => s

/-- Embeds `handleResize` (lines 184-188): same body as `handleScroll`. -/
def handleResize (s : St) : St :=
  match s.currentElement with
  | some el => if s.buttonDisplay != "none" then updateHelperPosition el s else s
  | none => s

/-- The alert text shown when no API key is configured (line 65). -/
def MISSING_KEY_ALERT : String :=
  "Please set your Gemini API key in the extension settings"

/-- The alert text shown on a failed transform (line 92). -/
def PROCESSING_ERROR_ALERT : String :=
  "Error processing text. Please try again."

/-- The "Correct Grammar" menu item's instruction prompt (line 33). -/
def grammarCorrectPrompt : String :=
  "correct grammar, only reply with the corrected phrase, without your comments. respond without parentheses on left and right sides. keep the original language"

/-- The success branch of `processText` (lines 85-89): write the improved
text into the target via `.value` for `<textarea>`/`<input>` form controls
(`instanceof HTMLTextAreaElement || instanceof HTMLInputElement`) and via
`.textContent` otherwise. The state's stored target is updated in place
(reference identity, i.e. `id`, is unchanged). -/
def applyResult (el : Element) (improvedText : String) (s : St) : St :=
  if el.tagName = "TEXTAREA" ∨ el.tagName = "INPUT" then
    { s with currentElement := some { el with value := improvedText } }
  else
    { s with currentElement := some { el with textContent := improvedText } }

/-- The `finally` block of `processText` (lines 93-104): restore the
button's idle content (`"G"`, loading class removed), clear `isProcessing`,
and, when the currently focused element is no longer the current target,
hide the helper immediately. -/
def processFinally (s : St) : St × List Event :=
  let s1 := { s with buttonText := "G", buttonLoading := false, isProcessing := false }
  let s2 := if !(activeIsCurrent s1) then hideHelper s1 else s1
  (s2, [Event.setProcessing false])

/-- Embeds `processText` (lines 50-105), one complete invocation run atomically.
Early returns: no current element, or empty `textContent` (note the code
reads `currentElement.textContent`, not `.value`). Then: set `isProcessing`,
swap the button content for the loading indicator, close the menu; inside
`try`, abort with an alert if the API key is falsy (empty), otherwise
perform the one `fetch` whose outcome is the `outcome` parameter; on
success write the result into the target, on any failure alert; the
`finally` block always runs. -/
def processText (geminiApiKey : String) (prompt : String) (outcome : FetchOutcome)
    (s : St) : St × List Event :=
  match s.currentElement with
  | none => (s, [])
  | some currentElement =>
    let text := currentElement.textContent
    if text = "" then (s, [])
    else
      let s1 := { s with isProcessing := true, buttonText := "", buttonLoading := true }
      let s2 := closeMenu s1
      if geminiApiKey = "" then
        let r := processFinally s2
        (r.1, Event.setProcessing true :: Event.alert MISSING_KEY_ALERT :: r.2)
      else
        match outcome with
        | FetchOutcome.success improvedText =>
            let s3 := applyResult currentElement improvedText s2
            let r := processFinally s3
            (r.1, Event.setProcessing true ::
              Event.fetchCall (prompt ++ ": " ++ text) :: r.2)
        | FetchOutcome.failure =>
            let r := processFinally s2
            (r.1, Event.setProcessing true ::
              Event.fetchCall (prompt ++ ": " ++ text) ::
              Event.alert PROCESSING_ERROR_ALERT :: r.2)

/-- The state `processText` has reached when it enters the `try` block
(lines 56-61): `isProcessing` set, button content swapped for the loading
indicator, menu closed. -/
def busyStart (s : St) : St :=
  closeMenu { s with isProcessing := true, buttonText := "", buttonLoading := true }

/-- The state right after the mount effect creates the two controls
(lines 215-219 with `createHelperButton`/`createHelperMenu`, lines 14-48):
both hidden, button text `"G"`, no target, no menu, not processing, no
pending timers; `active` is `document.activeElement` at mount time
(`none` = the body) and `sx`/`sy` the current scroll offset. -/
def initSt (active : Option Element) (sx sy : Int) : St :=
  { currentElement := none
    isMenuOpen := false
    isProcessing := false
    buttonDisplay := "none"
    buttonText := "G"
    buttonLoading := false
    buttonLeft := 0
    buttonTop := 0
    buttonZIndex := ""
    menuDisplay := "none"
    menuLeft := 0
    menuTop := 0
    menuZIndex := ""
    activeElement := active
    scrollX := sx
    scrollY := sy
    pendingBlurTimers := 0 }

/-- The mount effect (lines 214-234): after creating the controls, if
`document.activeElement !== document.body` (here: `active = some el`), run
the already-focused element through `handleElementFocus`. -/
def mount (active : Option Element) (sx sy : Int) : St :=
  let s := initSt active sx sy
  match active with
  | some el => handleElementFocus el s
  | none => s

/-- The external events the installed listeners react to. `focusIn el`
dispatches `handleElementFocus` after the browser has made `el` the active
element; `focusOut rt` is a `focusout` on the old target with
`relatedTarget = rt` (`none` = focus went to the body / nowhere);
`blurTimeout` is a pending debounce timer firing; `buttonClick` is a click
on the trigger button (only deliverable while the button is displayed);
`docClick tgt` is a document-level click on `tgt`; `menuItemClick` is an
activation of a menu item (only deliverable while the menu is displayed),
running one full `processText` invocation; `scrollTo`/`resize` drive the
scroll and resize handlers. -/
inductive Ev
  | focusIn (el : Element)
  | focusOut (relatedTarget : Option Element)
  | blurTimeout
  | buttonClick
  | docClick (target : Element)
  | menuItemClick (geminiApiKey prompt : String) (outcome : FetchOutcome)
  | scrollTo (sx sy : Int)
  | resize
deriving DecidableEq

/-- One event step of the overlay system. Events that cannot physically
occur in the given state (clicking a `display:none` button, a menu item of
a `display:none` menu, or a timer that was never scheduled) leave the state
unchanged. -/
def step (e : Ev) (s : St) : St :=
  match e with
  | Ev.focusIn el => handleElementFocus el { s with activeElement := some el }
  | Ev.focusOut rt =>
      let s1 := { s with activeElement := rt }
      match handleElementBlur rt with
      | BlurAction.ignored => s1
      | BlurAction.scheduleHide _ =>
          { s1 with pendingBlurTimers := s1.pendingBlurTimers + 1 }
  | Ev.blurTimeout =>
      match s.pendingBlurTimers with
      | 0 => s
      | n + 1 => blurTimeoutBody { s with pendingBlurTimers := n }
  | Ev.buttonClick =>
      if s.buttonDisplay = "none" then s else handleButtonClick s
  | Ev.docClick tgt => handleDocumentClick tgt s
  | Ev.menuItemClick key prompt outcome =>
      if s.menuDisplay = "block" then (processText key prompt outcome s).1 else s
  | Ev.scrollTo sx sy => handleScroll { s with scrollX := sx, scrollY := sy }
  | Ev.resize => handleResize s

/-- Run the overlay from a freshly mounted state through a list of events. -/
def run (active : Option Element) (sx sy : Int) (evs : List Ev) : St :=
  evs.foldl (fun s e => step e s) (mount active sx sy)

/-- Modelled from the spec: the eligibility predicate as the spec words it
("a text-area, a single-line text input, an element marked
content-editable, or an element whose accessibility role is textbox"),
reading "single-line text input" as an `<input>` of type `"text"`. Compare
with `isEligibleTarget`, which is what the code checks. -/
def eligibleTargetSpec (element : Element) : Bool :=
  element.tagName == "TEXTAREA" ||
    (element.tagName == "INPUT" && element.inputType == "text") ||
    element.isContentEditable || element.role == some "textbox"

/-- Modelled from the spec: the claimed overlay invariant — the trigger is
hidden only when the menu is closed, nothing is processing, AND no target
holds focus; and the menu is displayed iff `isMenuOpen`. -/
def specOverlayInv (s : St) : Prop :=
  (s.buttonDisplay = "none" →
    s.isMenuOpen = false ∧ s.isProcessing = false ∧ activeIsCurrent s = false) ∧
  (s.menuDisplay = "block" ↔ s.isMenuOpen = true)

/-- The overlay invariant the code actually maintains: the trigger is
hidden only when the menu is closed and nothing is processing, and the menu
is displayed iff `isMenuOpen`. (Unlike `specOverlayInv`, it does not tie
the hidden trigger to the target having lost focus.) -/
def overlayControlsInv (s : St) : Prop :=
  (s.buttonDisplay = "none" → s.isMenuOpen = false ∧ s.isProcessing = false) ∧
  (s.menuDisplay = "block" ↔ s.isMenuOpen = true)

instance (s : St) : Decidable (specOverlayInv s) := by
  unfold specOverlayInv; infer_instance

instance (s : St) : Decidable (overlayControlsInv s) := by
  unfold overlayControlsInv; infer_instance

/-- Fixture: a focused `<textarea>` holding the text "helo wrold". -/
def elTA : Element :=
  { id := 1, tagName := "TEXTAREA", inputType := "", isContentEditable := false
    role := none, value := "", textContent := "helo wrold"
    rectTop := 5, rectRight := 120
    closestHelperButton := false, closestHelperMenu := false }

/-- Fixture: a plain `<div>`, unrelated to the overlay controls. -/
def elDiv : Element :=
  { id := 2, tagName := "DIV", inputType := "", isContentEditable := false
    role := none, value := "", textContent := "plain"
    rectTop := 40, rectRight := 200
    closestHelperButton := false, closestHelperMenu := false }

/-- Fixture: an `<input type="checkbox">` — an input element that is not a
single-line text input. -/
def elChk : Element :=
  { id := 3, tagName := "INPUT", inputType := "checkbox", isContentEditable := false
    role := none, value := "on", textContent := ""
    rectTop := 60, rectRight := 80
    closestHelperButton := false, closestHelperMenu := false }

/-- Fixture: an element inside the helper menu (a menu item). -/
def elMenuChild : Element :=
  { id := 4, tagName := "DIV", inputType := "", isContentEditable := false
    role := none, value := "", textContent := "Correct Grammar"
    rectTop := 0, rectRight := 0
    closestHelperButton := false, closestHelperMenu := true }

/-- Fixture: a single-line text `<input>` whose value is "helo wrold".
As in the real DOM, an `<input>` element has no child text nodes, so its
`textContent` is empty — the user-visible text lives in `value`. -/
def elInputTxt : Element :=
  { id := 6, tagName := "INPUT", inputType := "text", isContentEditable := false
    role := none, value := "helo wrold", textContent := ""
    rectTop := 15, rectRight := 150
    closestHelperButton := false, closestHelperMenu := false }

/-- Fixture: freshly mounted overlay with nothing focused. -/
def sBase : St := mount none 0 0

/-- Fixture: overlay mounted with the textarea `elTA` focused (so it has
been adopted as the target and the button is shown). -/
def sFocusedTA : St := mount (some elTA) 0 0

/-- Fixture: overlay mounted with the text input `elInputTxt` focused. -/
def sFocusedInput : St := mount (some elInputTxt) 0 0

/-- Fixture: `sFocusedTA` after a trigger-button click opened the menu. -/
def sMenuOpenTA : St := handleButtonClick sFocusedTA

/-- Fixture: the event trace that defeats the spec's overlay invariant —
focus the textarea, blur to an unrelated div (scheduling the debounced
hide), refocus the textarea within the debounce window (showing the helper
again), then let the pending timer fire. -/
def c9Trace : List Ev :=
  [Ev.focusIn elTA, Ev.focusOut (some elDiv), Ev.focusIn elTA, Ev.blurTimeout]

/-- Fixture: the state reached by `c9Trace` from a fresh mount. -/
def sAfterRefocusTimeout : St := run none 0 0 c9Trace

/-- Claim C1 (evaluation at the failing input): with a single-line text
input holding the value "helo wrold" focused and adopted as the target,
activating "Correct Grammar" with the service poised to return
"Hello world." changes nothing at all — no busy/loading phase, no fetch,
no alert, no write — because `processText` reads
`currentElement.textContent`, which is empty for an `<input>` element, and
returns at the empty-text guard. The input's value stays "helo wrold"
instead of becoming "Hello world." as the claim states. -/
theorem c1_input_value_not_written :
    processText "api-key" grammarCorrectPrompt (FetchOutcome.success "Hello world.")
        sFocusedInput = (sFocusedInput, []) ∧
    sFocusedInput.currentElement = some elInputTxt ∧
    sFocusedInput.activeElement = some elInputTxt ∧
    elInputTxt.value = "helo wrold" ∧
    elInputTxt.textContent = "" := by decide

/-- After an even number of trigger-button activations, `isMenuOpen` is
back to its initial value. -/
theorem handleButtonClick_iterate_even (n : Nat) :
    ∀ s : St, (handleButtonClick^[2 * n] s).isMenuOpen = s.isMenuOpen := by
  induction n with
  | zero => intro s; simp
  | succ k ih =>
      intro s
      have h2 : 2 * (k + 1) = 2 * k + 1 + 1 := by ring
      rw [h2, Function.iterate_succ_apply, Function.iterate_succ_apply, ih]
      cases h : s.isMenuOpen <;> simp [handleButtonClick, openMenu, closeMenu, h]

/-- Claim C2: each trigger-control activation toggles the menu exactly —
an activation while the menu is open closes it (menu display `"none"`) and
an activation while it is closed opens it (display `"block"`) — so after
any even number of activations the menu-open state equals the initial
state. -/
theorem c2_trigger_toggles_menu (s : St) :
    (handleButtonClick s).isMenuOpen = !s.isMenuOpen ∧
    (handleButtonClick s).menuDisplay = (if s.isMenuOpen then "none" else "block") ∧
    ∀ n : Nat, (handleButtonClick^[2 * n] s).isMenuOpen = s.isMenuOpen := by
  refine ⟨?_, ?_, fun n => handleButtonClick_iterate_even n s⟩
  · cases h : s.isMenuOpen <;> simp [handleButtonClick, openMenu, closeMenu, h]
  · cases h : s.isMenuOpen <;> simp [handleButtonClick, openMenu, closeMenu, h]

/-- Claim C3 counterexample: activating a menu item with no credential
configured, on a target with non-empty text, produces the event trace
`setIsProcessing(true); alert(missing key); setIsProcessing(false)` — the
Busy flag IS set during the invocation (line 56 runs before the key check
at line 64), contradicting "the Busy flag is never set at any point". -/
theorem c3_busy_set_counterexample :
    (processText "" grammarCorrectPrompt (FetchOutcome.success "Hello world.")
        sFocusedTA).2
      = [Event.setProcessing true, Event.alert MISSING_KEY_ALERT,
         Event.setProcessing false] := by decide

/-- Claim C4 counterexample: an `<input type="checkbox">` is not a
single-line text input (the spec's eligibility predicate rejects it), yet
focusing it changes state — the overlay is shown and the checkbox is
adopted as the target — because the code only checks `tagName === "INPUT"`. -/
theorem c4_checkbox_counterexample :
    eligibleTargetSpec elChk = false ∧
    sBase.buttonDisplay = "none" ∧
    (handleElementFocus elChk sBase).buttonDisplay = "flex" ∧
    (handleElementFocus elChk sBase).currentElement = some elChk := by decide

/-- Claim C4 (amended): for every focus event, the focused element becomes
the target — overlay shown (`display:flex`) and positioned at the
element's top-right corner — exactly when it is a text-area, an input
element of any type, a content-editable element, or has role "textbox";
a focus event on any other element causes no state change at all. -/
theorem c4_focus_eligibility (el : Element) (s : St) :
    (isEligibleTarget el = true →
      (handleElementFocus el s).currentElement = some el ∧
      (handleElementFocus el s).buttonDisplay = "flex" ∧
      (handleElementFocus el s).buttonLeft = el.rectRight + s.scrollX - 32 ∧
      (handleElementFocus el s).buttonTop = el.rectTop + s.scrollY) ∧
    (isEligibleTarget el = false → handleElementFocus el s = s) := by
  constructor
  · intro h
    simp [handleElementFocus, h, showHelper, updateHelperPosition]
  · intro h
    simp [handleElementFocus, h]

/-- Witness for C4: the textarea fixture is eligible and focusing it shows
the overlay; the plain div is ineligible and focusing it is a no-op. -/
theorem c4_focus_eligibility_witness :
    (isEligibleTarget elTA = true ∧
      (handleElementFocus elTA sBase).buttonDisplay = "flex") ∧
    (isEligibleTarget elDiv = false ∧ handleElementFocus elDiv sBase = sBase) := by
  refine ⟨⟨by decide, ?_⟩, ⟨by decide, ?_⟩⟩
  · exact ((c4_focus_eligibility elTA sBase).1 (by decide)).2.1
  · exact (c4_focus_eligibility elDiv sBase).2 (by decide)

/-- Characterization of the `finally` block when it runs with the menu
already closed (which is always the case in `processText`, since `closeMenu`
runs before the `try`): it restores the button's idle content, clears
`isProcessing`, and additionally hides the button and the menu exactly when
the focused element is no longer the current target. -/
theorem processFinally_eq (s : St) (hm : s.isMenuOpen = false) :
    processFinally s =
      (if activeIsCurrent s then
          { s with buttonText := "G", buttonLoading := false, isProcessing := false }
        else
          { s with
            buttonText := "G"
            buttonLoading := false
            isProcessing := false
            buttonDisplay := "none"
            isMenuOpen := false
            menuDisplay := "none" },
        [Event.setProcessing false]) := by
  simp only [processFinally]
  have h : activeIsCurrent
      { s with buttonText := "G", buttonLoading := false, isProcessing := false }
      = activeIsCurrent s := rfl
  rw [h]
  cases hac : activeIsCurrent s
  · simp [hac, hideHelper, closeMenu, hm]
  · simp [hac]

/-- Running `processText` with a target, non-empty text, and a falsy (empty) API
key: sets Busy, swaps in the loading indicator, closes the menu, alerts,
performs no fetch, and runs the `finally` block. -/
theorem processText_missing_key (prompt : String) (outcome : FetchOutcome) (s : St)
    (el : Element) (h1 : s.currentElement = some el) (h2 : el.textContent ≠ "") :
    processText "" prompt outcome s =
      ((processFinally (busyStart s)).1,
        Event.setProcessing true :: Event.alert MISSING_KEY_ALERT ::
          (processFinally (busyStart s)).2) := by
  unfold processText busyStart
  rw [h1]
  dsimp only
  rw [if_neg h2, if_pos rfl]

/-- Running `processText` with a target, non-empty text, a non-empty key,
and a failing fetch: one fetch, an error alert, no write, and the `finally`
block. -/
theorem processText_failure_eq (key prompt : String) (s : St) (el : Element)
    (h1 : s.currentElement = some el) (h2 : el.textContent ≠ "") (hk : key ≠ "") :
    processText key prompt FetchOutcome.failure s =
      ((processFinally (busyStart s)).1,
        Event.setProcessing true :: Event.fetchCall (prompt ++ ": " ++ el.textContent) ::
          Event.alert PROCESSING_ERROR_ALERT :: (processFinally (busyStart s)).2) := by
  unfold processText busyStart
  rw [h1]
  dsimp only
  rw [if_neg h2, if_neg hk]

/-- Running `processText` with a target, non-empty text, a non-empty key,
and a successful fetch: one fetch, the result written into the target, and the
`finally` block. -/
theorem processText_success_eq (key prompt t : String) (s : St) (el : Element)
    (h1 : s.currentElement = some el) (h2 : el.textContent ≠ "") (hk : key ≠ "") :
    processText key prompt (FetchOutcome.success t) s =
      ((processFinally (applyResult el t (busyStart s))).1,
        Event.setProcessing true :: Event.fetchCall (prompt ++ ": " ++ el.textContent) ::
          (processFinally (applyResult el t (busyStart s))).2) := by
  unfold processText busyStart
  rw [h1]
  dsimp only
  rw [if_neg h2, if_neg hk]

/-- Claim C3 (amended): if no service credential is configured, then for
every menu-item activation on a target with non-empty text a blocking
notification is shown and zero outbound network calls are made; the Busy
flag IS set at the start of the invocation but is cleared again before the
invocation returns. -/
theorem c3_missing_key_amended (prompt : String) (outcome : FetchOutcome)
    (s : St) (el : Element)
    (h1 : s.currentElement = some el) (h2 : el.textContent ≠ "") :
    Event.alert MISSING_KEY_ALERT ∈ (processText "" prompt outcome s).2 ∧
    (∀ r, Event.fetchCall r ∉ (processText "" prompt outcome s).2) ∧
    Event.setProcessing true ∈ (processText "" prompt outcome s).2 ∧
    (processText "" prompt outcome s).1.isProcessing = false := by
  rw [processText_missing_key prompt outcome s el h1 h2]
  rw [processFinally_eq (busyStart s) rfl]
  refine ⟨by simp, fun r => by simp, by simp, ?_⟩
  cases hac : activeIsCurrent (busyStart s) <;> simp [hac]

/-- Witness for C3 (amended): concrete run with the focused textarea and no
API key — notification in the trace, Busy cleared at the end. -/
theorem c3_missing_key_amended_witness :
    sFocusedTA.currentElement = some elTA ∧ elTA.textContent ≠ "" ∧
    (processText "" grammarCorrectPrompt FetchOutcome.failure sFocusedTA).1.isProcessing
      = false ∧
    Event.alert MISSING_KEY_ALERT
      ∈ (processText "" grammarCorrectPrompt FetchOutcome.failure sFocusedTA).2 := by
  have h := c3_missing_key_amended grammarCorrectPrompt FetchOutcome.failure sFocusedTA elTA
    (by decide) (by decide)
  exact ⟨by decide, by decide, h.2.2.2, h.1⟩

/-- Writing the transform result into the target changes none of the
overlay-control or flag fields — only the stored target element. -/
theorem applyResult_overlay (el : Element) (t : String) (s : St) :
    ((applyResult el t s).isMenuOpen = s.isMenuOpen) ∧
    ((applyResult el t s).isProcessing = s.isProcessing) ∧
    ((applyResult el t s).buttonDisplay = s.buttonDisplay) ∧
    ((applyResult el t s).buttonText = s.buttonText) ∧
    ((applyResult el t s).buttonLoading = s.buttonLoading) ∧
    ((applyResult el t s).menuDisplay = s.menuDisplay) ∧
    ((applyResult el t s).activeElement = s.activeElement) ∧
    ((applyResult el t s).pendingBlurTimers = s.pendingBlurTimers) := by
  unfold applyResult
  split <;> exact ⟨rfl, rfl, rfl, rfl, rfl, rfl, rfl, rfl⟩

/-- Writing the transform result preserves the target's reference identity,
so the focus check in the `finally` block sees the same comparison. -/
theorem activeIsCurrent_applyResult (el : Element) (t : String) (s : St) :
    activeIsCurrent (applyResult el t s)
      = match s.activeElement with
        | some a => a.id == el.id
        | none => false := by
  unfold applyResult
  split <;> (unfold activeIsCurrent; dsimp only; cases s.activeElement <;> rfl)

/-- Rewrites `activeIsCurrent` in terms of the known current target. -/
theorem activeIsCurrent_of_current (s : St) (el : Element)
    (h1 : s.currentElement = some el) :
    activeIsCurrent s
      = match s.activeElement with
        | some a => a.id == el.id
        | none => false := by
  unfold activeIsCurrent
  rw [h1]
  cases s.activeElement <;> rfl

/-- Claim C5: after every transform completion (success or failure), the
trigger control's idle content is restored (`"G"`, loading class removed)
and Busy is cleared; no blur-debounce timer is involved; then, if the
element holding document focus is not the target, the overlay is hidden
immediately (button `display:none`, menu closed), and if the target still
holds focus the overlay stays as it was — visible and idle (button display
unchanged, menu closed, not busy). -/
theorem c5_transform_completion_cleanup (key prompt : String) (outcome : FetchOutcome)
    (s : St) (el : Element)
    (h1 : s.currentElement = some el) (h2 : el.textContent ≠ "") (hk : key ≠ "") :
    ((processText key prompt outcome s).1.buttonText = "G" ∧
     (processText key prompt outcome s).1.buttonLoading = false ∧
     (processText key prompt outcome s).1.isProcessing = false ∧
     (processText key prompt outcome s).1.isMenuOpen = false ∧
     (processText key prompt outcome s).1.menuDisplay = "none" ∧
     (processText key prompt outcome s).1.pendingBlurTimers = s.pendingBlurTimers) ∧
    (activeIsCurrent s = false →
      (processText key prompt outcome s).1.buttonDisplay = "none") ∧
    (activeIsCurrent s = true →
      (processText key prompt outcome s).1.buttonDisplay = s.buttonDisplay) := by
  cases outcome with
  | failure =>
      rw [processText_failure_eq key prompt s el h1 h2 hk,
        processFinally_eq (busyStart s) rfl]
      have hac : activeIsCurrent (busyStart s) = activeIsCurrent s := rfl
      rw [hac]
      cases h : activeIsCurrent s <;> simp [h, busyStart, closeMenu]
  | success t =>
      rw [processText_success_eq key prompt t s el h1 h2 hk]
      have hm : (applyResult el t (busyStart s)).isMenuOpen = false := by
        unfold applyResult
        split <;> rfl
      rw [processFinally_eq _ hm]
      have hac : activeIsCurrent (applyResult el t (busyStart s)) = activeIsCurrent s := by
        rw [activeIsCurrent_applyResult el t (busyStart s),
          activeIsCurrent_of_current s el h1]
        exact rfl
      rw [hac]
      obtain ⟨q1, q2, q3, q4, q5, q6, q7, q8⟩ := applyResult_overlay el t (busyStart s)
      have hq : (applyResult el t (busyStart s)).pendingBlurTimers = s.pendingBlurTimers :=
        q8.trans rfl
      have hbd : (applyResult el t (busyStart s)).buttonDisplay = s.buttonDisplay :=
        q3.trans rfl
      have hmd : (applyResult el t (busyStart s)).menuDisplay = "none" :=
        q6.trans rfl
      cases h : activeIsCurrent s <;> simp [h, hq, hbd, hm, hmd]

/-- Witness for C5: a concrete successful transform on the focused
textarea — idle content restored and Busy cleared. -/
theorem c5_transform_completion_cleanup_witness :
    sFocusedTA.currentElement = some elTA ∧ elTA.textContent ≠ "" ∧
    ("test-key" : String) ≠ "" ∧
    (processText "test-key" grammarCorrectPrompt (FetchOutcome.success "Hello world.")
        sFocusedTA).1.isProcessing = false ∧
    (processText "test-key" grammarCorrectPrompt (FetchOutcome.success "Hello world.")
        sFocusedTA).1.buttonText = "G" := by
  have h := c5_transform_completion_cleanup "test-key" grammarCorrectPrompt
    (FetchOutcome.success "Hello world.") sFocusedTA elTA (by decide) (by decide) (by decide)
  exact ⟨by decide, by decide, by decide, h.1.2.2.1, h.1.1⟩

/-- Claim C6: for every transform invocation that fails, the target element
is left completely unmodified (same element record, hence same value and
text content), the blocking error notification fires, and the Busy flag is
cleared. -/
theorem c6_failure_leaves_target_unchanged (key prompt : String) (s : St) (el : Element)
    (h1 : s.currentElement = some el) (h2 : el.textContent ≠ "") (hk : key ≠ "") :
    (processText key prompt FetchOutcome.failure s).1.currentElement = some el ∧
    Event.alert PROCESSING_ERROR_ALERT
      ∈ (processText key prompt FetchOutcome.failure s).2 ∧
    (processText key prompt FetchOutcome.failure s).1.isProcessing = false := by
  rw [processText_failure_eq key prompt s el h1 h2 hk,
    processFinally_eq (busyStart s) rfl]
  refine ⟨?_, by simp, ?_⟩
  · cases h : activeIsCurrent (busyStart s) <;> simp [h, busyStart, closeMenu, h1]
  · cases h : activeIsCurrent (busyStart s) <;> simp [h]

/-- Witness for C6: a concrete failing transform on the focused textarea —
the target still holds "helo wrold" and the error alert fired. -/
theorem c6_failure_leaves_target_unchanged_witness :
    sFocusedTA.currentElement = some elTA ∧ elTA.textContent = "helo wrold" ∧
    (processText "test-key" grammarCorrectPrompt FetchOutcome.failure
        sFocusedTA).1.currentElement = some elTA ∧
    Event.alert PROCESSING_ERROR_ALERT
      ∈ (processText "test-key" grammarCorrectPrompt FetchOutcome.failure sFocusedTA).2 := by
  have h := c6_failure_leaves_target_unchanged "test-key" grammarCorrectPrompt
    sFocusedTA elTA (by decide) (by decide) (by decide)
  exact ⟨by decide, by decide, h.1, h.2.1⟩

/-- Claim C7: a blur whose newly focused element lies inside the trigger
button or the menu (ancestor containment) is ignored entirely — the only
state change of the event is the new active element: the overlay is not
hidden, the target is not cleared, and no hide is scheduled. A blur to an
unrelated element only schedules a hide after the fixed 100 ms debounce,
and the scheduled callback skips the hide when, at firing time, the menu is
open or a transform is in progress. -/
theorem c7_blur_containment_and_debounce (rt : Element) (s : St) :
    ((rt.closestHelperButton || rt.closestHelperMenu) = true →
      handleElementBlur (some rt) = BlurAction.ignored ∧
      step (Ev.focusOut (some rt)) s = { s with activeElement := some rt } ∧
      (step (Ev.focusOut (some rt)) s).currentElement = s.currentElement ∧
      (step (Ev.focusOut (some rt)) s).buttonDisplay = s.buttonDisplay ∧
      (step (Ev.focusOut (some rt)) s).pendingBlurTimers = s.pendingBlurTimers) ∧
    ((rt.closestHelperButton || rt.closestHelperMenu) = false →
      handleElementBlur (some rt) = BlurAction.scheduleHide 100 ∧
      ∀ s2 : St, s2.isMenuOpen = true ∨ s2.isProcessing = true →
        blurTimeoutBody s2 = s2) := by
  constructor
  · intro h
    have hb : handleElementBlur (some rt) = BlurAction.ignored := by
      simp only [handleElementBlur]
      rw [if_pos h]
    have hstep : step (Ev.focusOut (some rt)) s = { s with activeElement := some rt } := by
      simp only [step]
      rw [hb]
    refine ⟨hb, hstep, ?_, ?_, ?_⟩ <;> rw [hstep]
  · intro h
    refine ⟨?_, ?_⟩
    · simp only [handleElementBlur]
      rw [if_neg (by simp [h])]
    · intro s2 h2
      unfold blurTimeoutBody
      rcases h2 with h2 | h2 <;> simp [h2]

/-- Witness for C7: a blur into a menu item is ignored; a blur to a plain
div schedules the 100 ms hide, and the callback is a no-op while the menu
is open. -/
theorem c7_blur_containment_and_debounce_witness :
    (elMenuChild.closestHelperButton || elMenuChild.closestHelperMenu) = true ∧
    handleElementBlur (some elMenuChild) = BlurAction.ignored ∧
    (elDiv.closestHelperButton || elDiv.closestHelperMenu) = false ∧
    handleElementBlur (some elDiv) = BlurAction.scheduleHide 100 ∧
    blurTimeoutBody sMenuOpenTA = sMenuOpenTA := by
  have ha := (c7_blur_containment_and_debounce elMenuChild sBase).1 (by decide)
  have hb := (c7_blur_containment_and_debounce elDiv sBase).2 (by decide)
  exact ⟨by decide, ha.1, by decide, hb.1, hb.2 sMenuOpenTA (Or.inl (by decide))⟩

/-- Claim C8: for every document click whose target is outside both the
trigger button and the menu, the menu is closed synchronously within that
same handler invocation — unconditionally, with no debounce — regardless
of the rest of the overlay state (in particular, whether the trigger is
hidden). -/
theorem c8_outside_click_closes_menu (tgt : Element) (s : St)
    (h1 : tgt.closestHelperButton = false) (h2 : tgt.closestHelperMenu = false) :
    (handleDocumentClick tgt s).isMenuOpen = false ∧
    (handleDocumentClick tgt s).menuDisplay = "none" := by
  unfold handleDocumentClick
  have hc : (!tgt.closestHelperButton && !tgt.closestHelperMenu) = true := by
    rw [h1, h2]
    rfl
  rw [if_pos hc]
  dsimp only
  unfold hideHelper closeMenu
  split
  · split
    · exact ⟨rfl, rfl⟩
    · exact ⟨rfl, rfl⟩
  · exact ⟨rfl, rfl⟩

/-- Witness for C8: a click on the plain div while the menu is open over
the focused textarea closes the menu. -/
theorem c8_outside_click_closes_menu_witness :
    elDiv.closestHelperButton = false ∧ elDiv.closestHelperMenu = false ∧
    sMenuOpenTA.isMenuOpen = true ∧
    (handleDocumentClick elDiv sMenuOpenTA).isMenuOpen = false ∧
    (handleDocumentClick elDiv sMenuOpenTA).menuDisplay = "none" := by
  have h := c8_outside_click_closes_menu elDiv sMenuOpenTA (by decide) (by decide)
  exact ⟨by decide, by decide, by decide, h.1, h.2⟩

/-- Claim C10: at mount time, an already-focused element (anything other
than the document body) is run through the same eligibility check as a
live focus event; if eligible it is immediately adopted as the target with
the overlay shown and positioned, with no subsequent focus event needed;
if ineligible the freshly created state is left as is. -/
theorem c10_mount_adopts_focused_element (el : Element) (sx sy : Int) :
    (isEligibleTarget el = true →
      (mount (some el) sx sy).currentElement = some el ∧
      (mount (some el) sx sy).buttonDisplay = "flex" ∧
      (mount (some el) sx sy).buttonLeft = el.rectRight + sx - 32 ∧
      (mount (some el) sx sy).buttonTop = el.rectTop + sy) ∧
    (isEligibleTarget el = false →
      mount (some el) sx sy = initSt (some el) sx sy) := by
  constructor
  · intro h
    simp [mount, handleElementFocus, h, showHelper, updateHelperPosition, initSt]
  · intro h
    simp [mount, handleElementFocus, h]

/-- Witness for C10: mounting with the textarea already focused adopts it
and shows the positioned button without any focus event. -/
theorem c10_mount_adopts_focused_element_witness :
    isEligibleTarget elTA = true ∧
    (mount (some elTA) 7 9).currentElement = some elTA ∧
    (mount (some elTA) 7 9).buttonDisplay = "flex" := by
  have h := (c10_mount_adopts_focused_element elTA 7 9).1 (by decide)
  exact ⟨by decide, h.1, h.2.1⟩

/-- Showing the helper always sets the button display to `"flex"`. -/
theorem showHelper_buttonDisplay (el : Element) (s : St) :
    (showHelper el s).buttonDisplay = "flex" := rfl

/-- Repositioning always sets the button display to `"flex"`. -/
theorem updateHelperPosition_buttonDisplay (el : Element) (s : St) :
    (updateHelperPosition el s).buttonDisplay = "flex" := rfl

/-- Showing the helper leaves the menu's display untouched. -/
theorem showHelper_menuDisplay (el : Element) (s : St) :
    (showHelper el s).menuDisplay = s.menuDisplay := rfl

/-- Showing the helper leaves `isMenuOpen` untouched. -/
theorem showHelper_isMenuOpen (el : Element) (s : St) :
    (showHelper el s).isMenuOpen = s.isMenuOpen := rfl

/-- The blur-debounce callback preserves the controls invariant. -/
theorem blurTimeoutBody_inv (s : St) (h : overlayControlsInv s) :
    overlayControlsInv (blurTimeoutBody s) := by
  obtain ⟨h1, h2⟩ := h
  unfold blurTimeoutBody hideHelper closeMenu
  split_ifs with hc1 hc2
  · exact ⟨h1, h2⟩
  · simp only [Bool.and_eq_true, Bool.not_eq_eq_eq_not, Bool.not_true] at hc1
    exact ⟨fun _ => ⟨rfl, hc1.2⟩, by simp⟩
  · exact ⟨h1, h2⟩

/-- The document-click handler preserves the controls invariant. -/
theorem handleDocumentClick_inv (tgt : Element) (s : St) (h : overlayControlsInv s) :
    overlayControlsInv (handleDocumentClick tgt s) := by
  obtain ⟨h1, h2⟩ := h
  unfold handleDocumentClick hideHelper closeMenu
  dsimp only
  split_ifs with hc1 hc2 hc3
  · exact ⟨fun hbd => ⟨rfl, (h1 hbd).2⟩, by simp⟩
  · have hp : s.isProcessing = false := by simpa using hc3
    exact ⟨fun _ => ⟨rfl, hp⟩, by simp⟩
  · exact ⟨fun hbd => ⟨rfl, (h1 hbd).2⟩, by simp⟩
  · exact ⟨h1, h2⟩

/-- One full `processText` invocation preserves the controls invariant. -/
theorem processText_inv (key prompt : String) (outcome : FetchOutcome) (s : St)
    (h : overlayControlsInv s) :
    overlayControlsInv (processText key prompt outcome s).1 := by
  obtain ⟨h1, h2⟩ := h
  cases hc : s.currentElement with
  | none =>
      unfold processText
      rw [hc]
      exact ⟨h1, h2⟩
  | some el =>
      by_cases ht : el.textContent = ""
      · unfold processText
        rw [hc]
        dsimp only
        rw [if_pos ht]
        exact ⟨h1, h2⟩
      · by_cases hkey : key = ""
        · subst hkey
          rw [processText_missing_key prompt outcome s el hc ht,
            processFinally_eq (busyStart s) rfl]
          unfold busyStart closeMenu
          split_ifs <;> exact ⟨fun _ => ⟨rfl, rfl⟩, by simp⟩
        · cases outcome with
          | failure =>
              rw [processText_failure_eq key prompt s el hc ht hkey,
                processFinally_eq (busyStart s) rfl]
              unfold busyStart closeMenu
              split_ifs <;> exact ⟨fun _ => ⟨rfl, rfl⟩, by simp⟩
          | success t =>
              rw [processText_success_eq key prompt t s el hc ht hkey]
              have hm : (applyResult el t (busyStart s)).isMenuOpen = false := by
                unfold applyResult
                split <;> rfl
              rw [processFinally_eq _ hm]
              unfold applyResult busyStart closeMenu
              split_ifs <;> exact ⟨fun _ => ⟨rfl, rfl⟩, by simp⟩

/-- Every event step preserves the controls invariant. -/
theorem step_preserves_inv (e : Ev) (s : St) (h : overlayControlsInv s) :
    overlayControlsInv (step e s) := by
  obtain ⟨h1, h2⟩ := h
  cases e with
  | focusIn el =>
      simp only [step]
      unfold handleElementFocus
      split
      · exact ⟨fun hbd =>
          absurd ((showHelper_buttonDisplay el _).symm.trans hbd) (by decide), h2⟩
      · exact ⟨h1, h2⟩
  | focusOut rt =>
      simp only [step]
      cases handleElementBlur rt
      · exact ⟨h1, h2⟩
      · exact ⟨h1, h2⟩
  | blurTimeout =>
      simp only [step]
      cases s.pendingBlurTimers with
      | zero => exact ⟨h1, h2⟩
      | succ n => exact blurTimeoutBody_inv _ ⟨h1, h2⟩
  | buttonClick =>
      simp only [step]
      split_ifs with hd
      · exact ⟨h1, h2⟩
      · unfold handleButtonClick openMenu closeMenu
        split_ifs with hm
        · exact ⟨fun hbd => ⟨rfl, (h1 hbd).2⟩, by simp⟩
        · exact ⟨fun hbd => absurd hbd hd, by simp⟩
  | docClick tgt =>
      simp only [step]
      exact handleDocumentClick_inv tgt s ⟨h1, h2⟩
  | menuItemClick key prompt outcome =>
      simp only [step]
      split_ifs with hm
      · exact processText_inv key prompt outcome s ⟨h1, h2⟩
      · exact ⟨h1, h2⟩
  | scrollTo sx sy =>
      simp only [step]
      unfold handleScroll
      cases s.currentElement with
      | none => exact ⟨h1, h2⟩
      | some el =>
          dsimp only
          split_ifs with hd
          · exact ⟨fun hbd =>
              absurd ((updateHelperPosition_buttonDisplay el _).symm.trans hbd)
                (by decide), h2⟩
          · exact ⟨h1, h2⟩
  | resize =>
      simp only [step]
      unfold handleResize
      cases s.currentElement with
      | none => exact ⟨h1, h2⟩
      | some el =>
          dsimp only
          split_ifs with hd
          · exact ⟨fun hbd =>
              absurd ((updateHelperPosition_buttonDisplay el _).symm.trans hbd)
                (by decide), h2⟩
          · exact ⟨h1, h2⟩

/-- A fresh mount satisfies the controls invariant. -/
theorem mount_inv (active : Option Element) (sx sy : Int) :
    overlayControlsInv (mount active sx sy) := by
  unfold mount initSt
  cases active with
  | none => exact ⟨fun _ => ⟨rfl, rfl⟩, by simp⟩
  | some el =>
      dsimp only
      unfold handleElementFocus
      split
      · refine ⟨fun hbd =>
          absurd ((showHelper_buttonDisplay el _).symm.trans hbd) (by decide), ?_⟩
        rw [showHelper_menuDisplay, showHelper_isMenuOpen]
        simp
      · exact ⟨fun _ => ⟨rfl, rfl⟩, by simp⟩

/-- Claim C9 counterexample: the state reached by mounting, focusing the
textarea, blurring to an unrelated div (which schedules the debounced
hide), refocusing the textarea within the debounce window, and letting the
timer fire is a reachable state in which the trigger control is hidden
while the target still holds document focus — violating the claimed
invariant that the trigger is hidden only when no target is focused. -/
theorem c9_hidden_while_focused_counterexample :
    ¬ specOverlayInv sAfterRefocusTimeout ∧
    sAfterRefocusTimeout.buttonDisplay = "none" ∧
    sAfterRefocusTimeout.currentElement = some elTA ∧
    sAfterRefocusTimeout.activeElement = some elTA ∧
    activeIsCurrent sAfterRefocusTimeout = true := by decide

/-- Claim C9 (amended): in every reachable state of the overlay — from any
mount, after any sequence of focus, blur, timer, click, and transform
events — the trigger control is hidden only when both `isMenuOpen` and
`isProcessing` are false (it may, however, be hidden while the target
still holds focus, when the blur debounce fires after a quick refocus),
and the menu is displayed iff `isMenuOpen`. -/
theorem c9_overlay_invariant_amended (active : Option Element) (sx sy : Int)
    (evs : List Ev) :
    overlayControlsInv (run active sx sy evs) := by
  unfold run
  suffices h : ∀ (l : List Ev) (s : St), overlayControlsInv s →
      overlayControlsInv (l.foldl (fun s e => step e s) s) by
    exact h evs (mount active sx sy) (mount_inv active sx sy)
  intro l
  induction l with
  | nil => intro s hs; exact hs
  | cons e l ih =>
      intro s hs
      simp only [List.foldl_cons]
      exact ih (step e s) (step_preserves_inv e s hs)

end GeminiHelper
